import Mathlib

/-!
Shallow embedding of the AthletiDB upset pipeline.

Source files embedded:
* `src/pipeline/normalize.py` — the `Upset` pydantic model (its
  `validate_upset_type` and `validate_magnitude` validators) and the
  classifier `detect_upset`.
* `src/pipeline/db.py` — the reads `get_recent_upsets` (SQL
  `ORDER BY game_date DESC, created_at DESC LIMIT :limit`, optional
  league filter) and `get_upset_stats` (SQL aggregates over the
  optionally-filtered `upsets` table).

Conventions of the embedding:
* Python ints are `Int`; Python floats (`point_spread`,
  `odds_before_game`, `upset_magnitude`) are `ℚ` — every arithmetic
  operation the source performs on them (addition of a float and an
  int-valued difference, `abs`, `max`, comparison with `0` and `2.0`)
  is exact in ℚ and order-isomorphic to the float computation on the
  magnitudes involved, so no rounding behaviour is lost.
* Python `None` for an optional argument is `Option.none`.
* `league_config` is passed to the source only through its truthiness
  (`if league_config:`), so it is embedded as the `Bool` that Python
  truthiness evaluates to; likewise `additional_context` reaches the
  detection logic only through the truthiness of
  `additional_context.get('historical_context')`, embedded as a `Bool`.
* The f-string reasons of the source are embedded as the structured
  values `UpsetReason` carrying exactly the data interpolated into each
  f-string; no claim concerns the rendered text itself.
* The `game_date := datetime.now()...` timestamp and the pass-through
  context fields (quarter, time remaining, weather, attendance,
  tv network) of the built record are not modelled: no claim mentions
  them and the timestamp is not a function of the inputs.
* A pydantic `ValidationError` raised while building the `Upset` is the
  explicit result `DetectResult.validationError`; returning `None` is
  `DetectResult.nullResult`.
-/

namespace AthletiDB

/-- The list of the `valid_types` of `Upset.validate_upset_type` in
`src/pipeline/normalize.py`. -/
def validTypes : List String := ["point_spread", "odds", "performance", "historical"]

/-- Structured form of the `upset_reason` f-strings of `detect_upset`:
each constructor carries the data interpolated into the corresponding
f-string of the source. -/
inductive UpsetReason where
  | spreadAway (away home : String) (margin : ℚ)
  | spreadHome (home away : String) (margin : ℚ)
  | oddsWin (winner : String) (odds : ℚ)
  | closeGame (diff : Int)
  | historicalCtx
deriving DecidableEq

/-- The `Upset` pydantic model of `src/pipeline/normalize.py`,
restricted to the fields `detect_upset` computes from its inputs. -/
structure Upset where
  league : String
  home_team : String
  away_team : String
  home_score : Int
  away_score : Int
  winner : String
  loser : String
  upset_type : String
  upset_reason : Option UpsetReason
  point_spread : Option ℚ
  odds_before_game : Option ℚ
  upset_magnitude : ℚ
deriving DecidableEq

/-- Outcome of a call to `detect_upset`: a record, Python `None`, or a
pydantic `ValidationError` raised by the model validators. -/
inductive DetectResult where
  | ok (u : Upset)
  | nullResult
  | validationError (msg : String)
deriving DecidableEq

def DetectResult.isOk : DetectResult → Bool
  | .ok _ => true
  | _ => false

def DetectResult.isNull : DetectResult → Bool
  | .nullResult => true
  | _ => false

def DetectResult.isValidationError : DetectResult → Bool
  | .validationError _ => true
  | _ => false

def DetectResult.getType : DetectResult → Option String
  | .ok u => some u.upset_type
  | _ => none

def DetectResult.getWinner : DetectResult → Option String
  | .ok u => some u.winner
  | _ => none

def DetectResult.getLoser : DetectResult → Option String
  | .ok u => some u.loser
  | _ => none

def DetectResult.getMagnitude : DetectResult → Option ℚ
  | .ok u => some u.upset_magnitude
  | _ => none

/-- The mutable locals `upset_detected`, `upset_type`, `upset_reason`,
`upset_magnitude` of `detect_upset`, threaded through the four rule
blocks in source order. -/
structure DetectState where
  detected : Bool
  utype : Option String
  reason : Option UpsetReason
  magnitude : ℚ
deriving DecidableEq

/-- Initial values of the locals: `False`, `None`, `None`, `0.0`. -/
def initState : DetectState :=
  { detected := false, utype := none, reason := none, magnitude := 0 }

/-- The `# Check point spread upset` block of `detect_upset`.
`point_spread > 0` means home favored; the `else` branch treats the
away team as favored (this includes `point_spread == 0`). -/
def spreadRule (home_team away_team : String) (home_score away_score : Int)
    (point_spread : Option ℚ) (s : DetectState) : DetectState :=
  match point_spread with
  | none => s
  | some ps =>
    if 0 < ps then
      if home_score < away_score then
        { detected := true
          utype := some "point_spread"
          reason := some (.spreadAway away_team home_team
            (ps + ((away_score - home_score : Int) : ℚ)))
          magnitude := |ps| + ((away_score - home_score : Int) : ℚ) }
      else s
    else
      if away_score < home_score then
        { detected := true
          utype := some "point_spread"
          reason := some (.spreadHome home_team away_team
            (|ps| + ((home_score - away_score : Int) : ℚ)))
          magnitude := |ps| + ((home_score - away_score : Int) : ℚ) }
      else s

/-- The `# Check odds upset` block: fires when
`odds_before_game is not None and odds_before_game > 2.0`; sets the
type only if no earlier rule did, overwrites the reason, and takes a
running max of the magnitude. -/
def oddsRule (winner : String) (odds_before_game : Option ℚ) (s : DetectState) : DetectState :=
  match odds_before_game with
  | none => s
  | some odds =>
    if 2 < odds then
      { detected := true
        utype := match s.utype with | none => some "odds" | some t => some t
        reason := some (.oddsWin winner odds)
        magnitude := max s.magnitude odds }
    else s

/-- The `# Check performance upset` block: guarded by the truthiness of
`league_config`; fires on `abs(winner_score - loser_score) <= 3`. -/
def performanceRule (league_config : Bool) (winner_score loser_score : Int)
    (s : DetectState) : DetectState :=
  if league_config then
    if |winner_score - loser_score| ≤ 3 then
      { detected := true
        utype := match s.utype with | none => some "performance" | some t => some t
        reason := some (.closeGame |winner_score - loser_score|)
        magnitude := max s.magnitude (5 - (|winner_score - loser_score| : ℚ)) }
    else s
  else s

/-- The `# Check historical upset` block: guarded by the truthiness of
`additional_context and additional_context.get('historical_context')`. -/
def historicalRule (historical_context : Bool) (s : DetectState) : DetectState :=
  if historical_context then
    { detected := true
      utype := match s.utype with | none => some "historical" | some t => some t
      reason := some .historicalCtx
      magnitude := max s.magnitude 3 }
  else s

/-- The state of the locals after the four rule blocks of
`detect_upset` have run, starting from `initState`.  The `winner`
passed to the odds rule is `home_team if home_score > away_score else
away_team`; `winner_score`/`loser_score` are `max`/`min` of the
scores. -/
def detectState (home_team away_team : String) (home_score away_score : Int)
    (point_spread odds_before_game : Option ℚ)
    (league_config historical_context : Bool) : DetectState :=
  historicalRule historical_context
    (performanceRule league_config (max home_score away_score) (min home_score away_score)
      (oddsRule (if away_score < home_score then home_team else away_team) odds_before_game
        (spreadRule home_team away_team home_score away_score point_spread initState)))

/-- Constructing `Upset(**upset_data)`: the pydantic validators
`validate_upset_type` and `validate_magnitude` raise a
`ValidationError` exactly when `upset_type` is not one of the four
valid values or `upset_magnitude < 0`. -/
def pydanticUpset (league home_team away_team : String) (home_score away_score : Int)
    (winner loser : String) (t : String) (reason : Option UpsetReason)
    (point_spread odds_before_game : Option ℚ) (magnitude : ℚ) : DetectResult :=
  if t ∈ validTypes then
    if 0 ≤ magnitude then
      .ok { league := league, home_team := home_team, away_team := away_team
            home_score := home_score, away_score := away_score
            winner := winner, loser := loser
            upset_type := t, upset_reason := reason
            point_spread := point_spread, odds_before_game := odds_before_game
            upset_magnitude := magnitude }
    else .validationError "Upset magnitude must be non-negative"
  else .validationError "Upset type must be one of the valid types"

/-- The tail of `detect_upset`: `if not upset_detected: return None`,
then `return Upset(**upset_data)` (a `None` `upset_type` would fail the
pydantic `str` field check). -/
def finalizeUpset (league home_team away_team : String) (home_score away_score : Int)
    (winner loser : String) (point_spread odds_before_game : Option ℚ)
    (s : DetectState) : DetectResult :=
  if s.detected then
    match s.utype with
    | none => .validationError "upset_type is None"
    | some t =>
      pydanticUpset league home_team away_team home_score away_score winner loser t
        s.reason point_spread odds_before_game s.magnitude
  else .nullResult

/-- `detect_upset` of `src/pipeline/normalize.py`.  `winner`/`loser`
are computed once up front by the strict test
`home_score > away_score`. -/
def detect_upset (league home_team away_team : String) (home_score away_score : Int)
    (point_spread odds_before_game : Option ℚ)
    (league_config historical_context : Bool) : DetectResult :=
  finalizeUpset league home_team away_team home_score away_score
    (if away_score < home_score then home_team else away_team)
    (if away_score < home_score then away_team else home_team)
    point_spread odds_before_game
    (detectState home_team away_team home_score away_score
      point_spread odds_before_game league_config historical_context)

/-- Truthiness of the Python test
`odds_before_game is not None and odds_before_game > 2.0`. -/
def oddsFires : Option ℚ → Bool
  | none => false
  | some o => decide (2 < o)

/-- The record `detect_upset` builds for the 98–112 away win with
spread `8.5` and no other optional input. -/
def exampleUpset : Upset :=
  { league := "NBA", home_team := "Lakers", away_team := "Warriors"
    home_score := 98, away_score := 112
    winner := "Warriors", loser := "Lakers"
    upset_type := "point_spread"
    upset_reason := some (.spreadAway "Warriors" "Lakers"
      (17/2 + ((112 - 98 : Int) : ℚ)))
    point_spread := some (17/2), odds_before_game := none
    upset_magnitude := |(17 : ℚ)/2| + ((112 - 98 : Int) : ℚ) }

/-! ### Database reads (`src/pipeline/db.py`) -/

/-- A stored row of the `upsets` table, restricted to the columns the
reads under verification consult. -/
structure UpsetRow where
  league : String
  game_date : String
  created_at : String
  winner : String
  upset_type : String
  upset_magnitude : ℚ
deriving DecidableEq

/-- The `if league:` guard shared by `get_recent_upsets` and
`get_upset_stats`: the `AND league = :league` clause is added only when
`league` is truthy (not `None` and not the empty string). -/
def leagueFilter (league : Option String) (rows : List UpsetRow) : List UpsetRow :=
  match league with
  | none => rows
  | some l => if l = "" then rows else rows.filter (fun r => decide (r.league = l))

/-- `ORDER BY game_date DESC, created_at DESC`: row `a` comes no later
than row `b` when `a.game_date` is greater, or equal with
`a.created_at` no smaller. -/
def recentLE (a b : UpsetRow) : Prop :=
  b.game_date < a.game_date ∨ (b.game_date = a.game_date ∧ b.created_at ≤ a.created_at)

instance : DecidableRel recentLE := fun a b =>
  inferInstanceAs (Decidable (b.game_date < a.game_date ∨
    (b.game_date = a.game_date ∧ b.created_at ≤ a.created_at)))

instance : IsTotal UpsetRow recentLE where
  total a b := by
    unfold recentLE
    rcases lt_trichotomy a.game_date b.game_date with h | h | h
    · exact Or.inr (Or.inl h)
    · rcases le_total b.created_at a.created_at with h2 | h2
      · exact Or.inl (Or.inr ⟨h.symm, h2⟩)
      · exact Or.inr (Or.inr ⟨h, h2⟩)
    · exact Or.inl (Or.inl h)

instance : IsTrans UpsetRow recentLE where
  trans a b c hab hbc := by
    unfold recentLE at hab hbc ⊢
    rcases hab with h1 | ⟨h1, h1c⟩
    · rcases hbc with h2 | ⟨h2, h2c⟩
      · exact Or.inl (lt_trans h2 h1)
      · exact Or.inl (by rw [h2]; exact h1)
    · rcases hbc with h2 | ⟨h2, h2c⟩
      · exact Or.inl (h1 ▸ h2)
      · exact Or.inr ⟨h2.trans h1, h2c.trans h1c⟩

/-- `get_recent_upsets` of `src/pipeline/db.py`: the optionally
league-filtered rows, ordered by `game_date DESC, created_at DESC`,
truncated by `LIMIT :limit`. -/
def get_recent_upsets (league : Option String) (limit : Nat)
    (rows : List UpsetRow) : List UpsetRow :=
  (List.insertionSort recentLE (leagueFilter league rows)).take limit

/-- SQL `AVG(c)`: `NULL` over the empty set, else the mean. -/
def sqlAvg (xs : List ℚ) : Option ℚ :=
  match xs with
  | [] => none
  | _ => some (xs.sum / (xs.length : ℚ))

/-- SQL `MAX(c)`: `NULL` over the empty set, else the maximum. -/
def sqlMax (xs : List ℚ) : Option ℚ :=
  match xs with
  | [] => none
  | x :: rest => some (rest.foldl max x)

/-- The single row the aggregate `SELECT` of `get_upset_stats`
returns. -/
structure UpsetStats where
  total_upsets : Nat
  unique_upset_teams : Nat
  avg_magnitude : Option ℚ
  max_magnitude : Option ℚ
  spread_upsets : Nat
  odds_upsets : Nat
  performance_upsets : Nat
  historical_upsets : Nat
deriving DecidableEq

/-- `COUNT(CASE WHEN upset_type = t THEN 1 END)`. -/
def countType (t : String) (rows : List UpsetRow) : Nat :=
  (rows.filter (fun r => decide (r.upset_type = t))).length

/-- The aggregate row computed over an already-filtered set of rows. -/
def mkStatsRow (f : List UpsetRow) : UpsetStats :=
  { total_upsets := f.length
    unique_upset_teams := (f.map (fun r => r.winner)).dedup.length
    avg_magnitude := sqlAvg (f.map (fun r => r.upset_magnitude))
    max_magnitude := sqlMax (f.map (fun r => r.upset_magnitude))
    spread_upsets := countType "point_spread" f
    odds_upsets := countType "odds" f
    performance_upsets := countType "performance" f
    historical_upsets := countType "historical" f }

/-- `get_upset_stats` of `src/pipeline/db.py`. -/
def get_upset_stats (league : Option String) (rows : List UpsetRow) : UpsetStats :=
  mkStatsRow (leagueFilter league rows)

/-! ### Helper lemmas about the rule blocks -/

/-- Invariant the rule blocks maintain on the classifier locals: any
assigned type is one of the four valid values, the magnitude never goes
negative, and detection always comes with an assigned type. -/
def StateOK (s : DetectState) : Prop :=
  (∀ t, s.utype = some t → t ∈ validTypes) ∧ 0 ≤ s.magnitude ∧
    (s.detected = true → s.utype ≠ none)

theorem initState_ok : StateOK initState := by
  refine ⟨?_, le_refl 0, ?_⟩
  · intro t h
    simp [initState] at h
  · intro h
    simp [initState] at h

theorem StateOK_fired (t : String) (r : Option UpsetReason) (m : ℚ)
    (htv : t ∈ validTypes) (hm : 0 ≤ m) :
    StateOK { detected := true, utype := some t, reason := r, magnitude := m } := by
  refine ⟨?_, hm, ?_⟩
  · intro t2 h
    simp only [Option.some.injEq] at h
    rw [← h]
    exact htv
  · intro _
    simp

theorem spreadRule_tie (ht av : String) (n : Int) (ps : Option ℚ) (s : DetectState) :
    spreadRule ht av n n ps s = s := by
  cases ps with
  | none => rfl
  | some p => simp [spreadRule, lt_irrefl]

theorem spreadRule_away_win (ht av : String) (hsc asc : Int) (ps : ℚ) (s : DetectState)
    (hps : 0 < ps) (hw : hsc < asc) :
    spreadRule ht av hsc asc (some ps) s =
      { detected := true
        utype := some "point_spread"
        reason := some (.spreadAway av ht (ps + ((asc - hsc : Int) : ℚ)))
        magnitude := |ps| + ((asc - hsc : Int) : ℚ) } := by
  simp only [spreadRule]
  rw [if_pos hps, if_pos hw]

theorem spreadRule_home_win (ht av : String) (hsc asc : Int) (ps : ℚ) (s : DetectState)
    (hps : ps ≤ 0) (hw : asc < hsc) :
    spreadRule ht av hsc asc (some ps) s =
      { detected := true
        utype := some "point_spread"
        reason := some (.spreadHome ht av (|ps| + ((hsc - asc : Int) : ℚ)))
        magnitude := |ps| + ((hsc - asc : Int) : ℚ) } := by
  simp only [spreadRule]
  rw [if_neg (not_lt.mpr hps), if_pos hw]

theorem spreadRule_no_fire (ht av : String) (hsc asc : Int) (ps : ℚ) (s : DetectState)
    (h1 : ¬(0 < ps ∧ hsc < asc)) (h2 : ¬(ps ≤ 0 ∧ asc < hsc)) :
    spreadRule ht av hsc asc (some ps) s = s := by
  simp only [spreadRule]
  by_cases hp : 0 < ps
  · rw [if_pos hp, if_neg (fun hc => h1 ⟨hp, hc⟩)]
  · rw [if_neg hp, if_neg (fun hc => h2 ⟨not_lt.mp hp, hc⟩)]

theorem oddsRule_no_fire (w : String) (odds : Option ℚ) (s : DetectState)
    (h : oddsFires odds = false) : oddsRule w odds s = s := by
  cases odds with
  | none => rfl
  | some o =>
    simp only [oddsRule]
    rw [if_neg (of_decide_eq_false h)]

theorem oddsRule_fire (w : String) (o : ℚ) (s : DetectState) (ho : 2 < o) :
    (oddsRule w (some o) s).detected = true := by
  simp only [oddsRule]
  rw [if_pos ho]

theorem oddsRule_fire_typed (w : String) (o : ℚ) (d : Bool) (t : String)
    (r : Option UpsetReason) (m : ℚ) (ho : 2 < o) :
    oddsRule w (some o) { detected := d, utype := some t, reason := r, magnitude := m } =
      { detected := true, utype := some t, reason := some (.oddsWin w o)
        magnitude := max m o } := by
  simp only [oddsRule]
  rw [if_pos ho]

theorem oddsRule_detected (w : String) (odds : Option ℚ) (s : DetectState)
    (h : s.detected = true) : (oddsRule w odds s).detected = true := by
  cases odds with
  | none => exact h
  | some o =>
    simp only [oddsRule]
    by_cases ho : 2 < o
    · rw [if_pos ho]
    · rw [if_neg ho]
      exact h

theorem performanceRule_false (ws ls : Int) (s : DetectState) :
    performanceRule false ws ls s = s := rfl

theorem performanceRule_fire (ws ls : Int) (s : DetectState)
    (hd : |ws - ls| ≤ 3) : (performanceRule true ws ls s).detected = true := by
  simp only [performanceRule, if_true]
  rw [if_pos hd]

theorem performanceRule_detected (lc : Bool) (ws ls : Int) (s : DetectState)
    (h : s.detected = true) : (performanceRule lc ws ls s).detected = true := by
  cases lc with
  | false => exact h
  | true =>
    simp only [performanceRule, if_true]
    by_cases hd : |ws - ls| ≤ 3
    · rw [if_pos hd]
    · rw [if_neg hd]
      exact h

theorem historicalRule_false (s : DetectState) : historicalRule false s = s := rfl

theorem historicalRule_fire (s : DetectState) :
    (historicalRule true s).detected = true := by
  simp only [historicalRule, if_true]

theorem historicalRule_detected (hc : Bool) (s : DetectState)
    (h : s.detected = true) : (historicalRule hc s).detected = true := by
  cases hc with
  | false => exact h
  | true => exact historicalRule_fire s

theorem spreadRule_ok (ht av : String) (hsc asc : Int) (ps : Option ℚ) (s : DetectState)
    (h : StateOK s) : StateOK (spreadRule ht av hsc asc ps s) := by
  cases ps with
  | none => exact h
  | some p =>
    by_cases hp : 0 < p
    · by_cases hw : hsc < asc
      · rw [spreadRule_away_win ht av hsc asc p s hp hw]
        refine StateOK_fired _ _ _ (by decide) ?_
        have hc : (0 : ℚ) ≤ ((asc - hsc : Int) : ℚ) := by
          exact_mod_cast (by omega : (0 : Int) ≤ asc - hsc)
        exact add_nonneg (abs_nonneg p) hc
      · rw [spreadRule_no_fire ht av hsc asc p s (fun hcon => hw hcon.2)
          (fun hcon => absurd hp (not_lt.mpr hcon.1))]
        exact h
    · by_cases hw : asc < hsc
      · rw [spreadRule_home_win ht av hsc asc p s (not_lt.mp hp) hw]
        refine StateOK_fired _ _ _ (by decide) ?_
        have hc : (0 : ℚ) ≤ ((hsc - asc : Int) : ℚ) := by
          exact_mod_cast (by omega : (0 : Int) ≤ hsc - asc)
        exact add_nonneg (abs_nonneg p) hc
      · rw [spreadRule_no_fire ht av hsc asc p s (fun hcon => hp hcon.1)
          (fun hcon => hw hcon.2)]
        exact h

theorem oddsRule_ok (w : String) (odds : Option ℚ) (s : DetectState)
    (h : StateOK s) : StateOK (oddsRule w odds s) := by
  obtain ⟨d, ut, r, m⟩ := s
  obtain ⟨h1, h2, h3⟩ := h
  cases odds with
  | none => exact ⟨h1, h2, h3⟩
  | some o =>
    by_cases ho : 2 < o
    · cases ut with
      | none =>
        simp only [oddsRule]
        rw [if_pos ho]
        refine ⟨?_, le_max_of_le_left h2, fun _ => by simp⟩
        intro t htE
        simp only [Option.some.injEq] at htE
        rw [← htE]
        decide
      | some t0 =>
        rw [oddsRule_fire_typed w o d t0 r m ho]
        exact StateOK_fired t0 _ _ (h1 t0 rfl) (le_max_of_le_left h2)
    · simp only [oddsRule]
      rw [if_neg ho]
      exact ⟨h1, h2, h3⟩

theorem performanceRule_ok (lc : Bool) (ws ls : Int) (s : DetectState)
    (h : StateOK s) : StateOK (performanceRule lc ws ls s) := by
  obtain ⟨d, ut, r, m⟩ := s
  obtain ⟨h1, h2, h3⟩ := h
  cases lc with
  | false => exact ⟨h1, h2, h3⟩
  | true =>
    simp only [performanceRule, if_true]
    by_cases hd : |ws - ls| ≤ 3
    · rw [if_pos hd]
      cases ut with
      | none =>
        refine ⟨?_, le_max_of_le_left h2, fun _ => by simp⟩
        intro t htE
        simp only [Option.some.injEq] at htE
        rw [← htE]
        decide
      | some t0 =>
        exact StateOK_fired t0 _ _ (h1 t0 rfl) (le_max_of_le_left h2)
    · rw [if_neg hd]
      exact ⟨h1, h2, h3⟩

theorem historicalRule_ok (hc : Bool) (s : DetectState)
    (h : StateOK s) : StateOK (historicalRule hc s) := by
  obtain ⟨d, ut, r, m⟩ := s
  obtain ⟨h1, h2, h3⟩ := h
  cases hc with
  | false => exact ⟨h1, h2, h3⟩
  | true =>
    simp only [historicalRule, if_true]
    cases ut with
    | none =>
      refine ⟨?_, le_max_of_le_left h2, fun _ => by simp⟩
      intro t htE
      simp only [Option.some.injEq] at htE
      rw [← htE]
      decide
    | some t0 =>
      exact StateOK_fired t0 _ _ (h1 t0 rfl) (le_max_of_le_left h2)

theorem detectState_ok (ht av : String) (hsc asc : Int) (ps odds : Option ℚ)
    (lc hc : Bool) : StateOK (detectState ht av hsc asc ps odds lc hc) :=
  historicalRule_ok _ _ (performanceRule_ok _ _ _ _ (oddsRule_ok _ _ _
    (spreadRule_ok _ _ _ _ _ _ initState_ok)))

theorem finalizeUpset_fields (league ht av : String) (hsc asc : Int) (w l : String)
    (ps odds : Option ℚ) (s : DetectState) (hd : s.detected = true) (hok : StateOK s) :
    (finalizeUpset league ht av hsc asc w l ps odds s).getType = s.utype ∧
    (finalizeUpset league ht av hsc asc w l ps odds s).getWinner = some w ∧
    (finalizeUpset league ht av hsc asc w l ps odds s).getLoser = some l ∧
    (finalizeUpset league ht av hsc asc w l ps odds s).getMagnitude = some s.magnitude ∧
    (finalizeUpset league ht av hsc asc w l ps odds s).isOk = true := by
  obtain ⟨d, ut, r, m⟩ := s
  obtain ⟨h1, h2, h3⟩ := hok
  cases ut with
  | none => exact absurd rfl (h3 hd)
  | some t =>
    have htv : t ∈ validTypes := h1 t rfl
    have hdt : d = true := hd
    subst hdt
    simp [finalizeUpset, pydanticUpset, htv, h2, DetectResult.getType,
      DetectResult.getWinner, DetectResult.getLoser, DetectResult.getMagnitude,
      DetectResult.isOk]

theorem detect_upset_fields (league ht av : String) (hsc asc : Int) (ps odds : Option ℚ)
    (lc hc : Bool) (hd : (detectState ht av hsc asc ps odds lc hc).detected = true) :
    (detect_upset league ht av hsc asc ps odds lc hc).getType =
      (detectState ht av hsc asc ps odds lc hc).utype ∧
    (detect_upset league ht av hsc asc ps odds lc hc).getWinner =
      some (if asc < hsc then ht else av) ∧
    (detect_upset league ht av hsc asc ps odds lc hc).getLoser =
      some (if asc < hsc then av else ht) ∧
    (detect_upset league ht av hsc asc ps odds lc hc).getMagnitude =
      some (detectState ht av hsc asc ps odds lc hc).magnitude ∧
    (detect_upset league ht av hsc asc ps odds lc hc).isOk = true :=
  finalizeUpset_fields league ht av hsc asc _ _ ps odds _ hd
    (detectState_ok ht av hsc asc ps odds lc hc)

/-! ### Claims -/

/-- C1 (counterexample): a tied game is not always unclassified — with
`home_score = away_score = 100` and `odds_before_game = 2.5` the
classifier returns a non-null `Upset` record, contradicting the claimed
tie policy "classify returns null regardless of any other field". -/
theorem tie_with_high_odds_is_classified :
    (detect_upset "NBA" "Hawks" "Bulls" 100 100 none (some (5/2)) false false).isNull
        = false ∧
    (detect_upset "NBA" "Hawks" "Bulls" 100 100 none (some (5/2)) false false).isOk
        = true := by
  norm_num [detect_upset, detectState, spreadRule, oddsRule, performanceRule,
    historicalRule, finalizeUpset, pydanticUpset, initState, validTypes,
    DetectResult.isNull, DetectResult.isOk]

/-- C1 (amended): on a tied game the point-spread rule never fires, so
whenever no other rule fires either — `odds_before_game` absent or
`≤ 2.0`, `league_config` falsy and no truthy `historical_context` —
`detect_upset` returns null (and raises nothing), for every league,
team pair, tied score and point spread. -/
theorem tie_null_when_no_other_rule (league ht av : String) (n : Int)
    (ps odds : Option ℚ) (lc hc : Bool) (hodds : oddsFires odds = false)
    (hlc : lc = false) (hhc : hc = false) :
    detect_upset league ht av n n ps odds lc hc = .nullResult := by
  subst hlc
  subst hhc
  have hs : detectState ht av n n ps odds false false = initState := by
    unfold detectState
    rw [spreadRule_tie, oddsRule_no_fire _ _ _ hodds, performanceRule_false,
      historicalRule_false]
  unfold detect_upset
  rw [hs]
  rfl

/-- C1 (witness): the amended theorem applied to a concrete tied NBA
game with spread `8.5` and odds `2.0`. -/
theorem tie_null_when_no_other_rule_witness :
    detect_upset "NBA" "Hawks" "Bulls" 100 100 (some (17/2)) (some 2) false false
      = .nullResult :=
  tie_null_when_no_other_rule "NBA" "Hawks" "Bulls" 100 (some (17/2)) (some 2)
    false false (by decide) rfl rfl

/-- C2 (counterexample): with `point_spread = 0` the code treats the
away team as favored, so a home win 10–5 IS a point-spread upset
(the claim says it must not be) and an away win 5–10 yields no upset at
all (the claim says it must). -/
theorem zero_spread_counterexample :
    (detect_upset "NBA" "Hawks" "Bulls" 10 5 (some 0) none false false).getType
        = some "point_spread" ∧
    detect_upset "NBA" "Hawks" "Bulls" 5 10 (some 0) none false false
        = .nullResult := by
  norm_num [detect_upset, detectState, spreadRule, oddsRule, performanceRule,
    historicalRule, finalizeUpset, pydanticUpset, initState, validTypes,
    DetectResult.getType]

/-- C2 (amended): when `point_spread = 0` and no other optional input
is supplied, a home win of any margin yields a point-spread upset,
while an away win yields no upset (the zero boundary is treated as
"away favored", so the home winner beat the favorite). -/
theorem zero_spread_home_win_upset (league ht av : String) (hsc asc : Int) :
    (asc < hsc →
      (detect_upset league ht av hsc asc (some 0) none false false).getType
        = some "point_spread") ∧
    (hsc < asc →
      detect_upset league ht av hsc asc (some 0) none false false = .nullResult) := by
  constructor
  · intro hlt
    have hs : detectState ht av hsc asc (some 0) none false false =
        { detected := true
          utype := some "point_spread"
          reason := some (.spreadHome ht av (|(0 : ℚ)| + ((hsc - asc : Int) : ℚ)))
          magnitude := |(0 : ℚ)| + ((hsc - asc : Int) : ℚ) } := by
      unfold detectState
      rw [spreadRule_home_win ht av hsc asc 0 initState le_rfl hlt]
      rfl
    have hd : (detectState ht av hsc asc (some 0) none false false).detected = true := by
      rw [hs]
    obtain ⟨h1, -, -, -, -⟩ :=
      detect_upset_fields league ht av hsc asc (some 0) none false false hd
    rw [h1, hs]
  · intro hlt
    have hs : detectState ht av hsc asc (some 0) none false false = initState := by
      unfold detectState
      rw [spreadRule_no_fire ht av hsc asc 0 initState
        (fun hcon => lt_irrefl (0 : ℚ) hcon.1)
        (fun hcon => absurd hlt (not_lt.mpr (le_of_lt hcon.2)))]
      rfl
    unfold detect_upset
    rw [hs]
    rfl

/-- C2 (witness): the amended theorem at a concrete 10–5 home win and a
concrete 5–10 away win with `point_spread = 0`. -/
theorem zero_spread_home_win_upset_witness :
    (detect_upset "NBA" "Hawks" "Bulls" 10 5 (some 0) none false false).getType
        = some "point_spread" ∧
    detect_upset "NBA" "Hawks" "Bulls" 5 10 (some 0) none false false
        = .nullResult :=
  ⟨(zero_spread_home_win_upset "NBA" "Hawks" "Bulls" 10 5).1 (by decide),
   (zero_spread_home_win_upset "NBA" "Hawks" "Bulls" 5 10).2 (by decide)⟩

/-- C3 (counterexample): the classifier performs none of the claimed
validation.  With equal team names (and, separately, empty team names
with negative scores) it raises no validation error; with no rule
firing it silently returns null — exactly what the claim says must not
happen. -/
theorem invalid_input_no_error_example :
    detect_upset "NBA" "SameTeam" "SameTeam" 1 0 none none false false
        = .nullResult ∧
    detect_upset "NBA" "" "" (-1) (-2) none none false false = .nullResult := by
  exact ⟨rfl, rfl⟩

/-- C3 (amended): `detect_upset` checks no precondition on team names
or score signs: for every input whatsoever — equal, empty team names,
negative scores included — it never raises a validation error; it
returns null when no rule fires and an `Upset` record otherwise. -/
theorem detect_upset_never_validation_error (league ht av : String)
    (hsc asc : Int) (ps odds : Option ℚ) (lc hc : Bool) :
    (detect_upset league ht av hsc asc ps odds lc hc).isValidationError = false := by
  by_cases hd : (detectState ht av hsc asc ps odds lc hc).detected = true
  · obtain ⟨-, -, -, -, h5⟩ :=
      detect_upset_fields league ht av hsc asc ps odds lc hc hd
    revert h5
    cases detect_upset league ht av hsc asc ps odds lc hc <;>
      simp [DetectResult.isOk, DetectResult.isValidationError]
  · unfold detect_upset finalizeUpset
    rw [if_neg hd]
    rfl

/-- C4 (counterexample): when the performance rule also fires, the
final magnitude is NOT the max of the point-spread and odds
contributions.  With spread `0.5` (home favored), a 100–101 away win,
odds `2.1` and a truthy `league_config`, both claimed rules fire, the
spread contribution is `1.5` and the odds contribution `2.1`, yet the
returned magnitude is `4` (the performance contribution `5 - 1`), not
`max 1.5 2.1 = 2.1`. -/
theorem magnitude_not_max_of_two_example :
    (detect_upset "NBA" "Harriers" "Arrows" 100 101 (some (1/2)) (some (21/10))
        true false).getMagnitude
      ≠ some (max ((1:ℚ)/2 + ((101 - 100 : Int) : ℚ)) (21/10)) ∧
    (detect_upset "NBA" "Harriers" "Arrows" 100 101 (some (1/2)) (some (21/10))
        true false).getMagnitude = some 4 := by
  norm_num [detect_upset, detectState, spreadRule, oddsRule, performanceRule,
    historicalRule, finalizeUpset, pydanticUpset, initState, validTypes,
    DetectResult.getMagnitude, abs_of_pos]

/-- C4 (amended): when both the point-spread rule fires (a provided
spread contradicted by the result) and the odds rule fires
(`odds_before_game > 2.0`), and no later rule fires (`league_config`
falsy, no historical context), the returned record has
`upset_type = "point_spread"` (the first rule keeps the label) and
`upset_magnitude = max (spread contribution) odds_before_game`.  (With
a truthy `league_config` or historical context the label is still
`"point_spread"`, but the magnitude is the running max over all fired
rules, as the counterexample shows.) -/
theorem spread_and_odds_priority (league ht av : String) (hsc asc : Int) (ps o : ℚ)
    (hfire : (0 < ps ∧ hsc < asc) ∨ (ps ≤ 0 ∧ asc < hsc)) (ho : 2 < o) :
    (detect_upset league ht av hsc asc (some ps) (some o) false false).getType
        = some "point_spread" ∧
    (detect_upset league ht av hsc asc (some ps) (some o) false false).getMagnitude
        = some (max (|ps| + ((|hsc - asc| : Int) : ℚ)) o) := by
  rcases hfire with ⟨hp, hw⟩ | ⟨hp, hw⟩
  · have habs : |hsc - asc| = asc - hsc := by
      rw [abs_of_nonpos (by omega : hsc - asc ≤ 0)]
      omega
    have hs : detectState ht av hsc asc (some ps) (some o) false false =
        { detected := true
          utype := some "point_spread"
          reason := some (.oddsWin (if asc < hsc then ht else av) o)
          magnitude := max (|ps| + ((asc - hsc : Int) : ℚ)) o } := by
      unfold detectState
      rw [spreadRule_away_win ht av hsc asc ps initState hp hw,
        oddsRule_fire_typed _ o _ _ _ _ ho, performanceRule_false, historicalRule_false]
    have hd : (detectState ht av hsc asc (some ps) (some o) false false).detected
        = true := by
      rw [hs]
    obtain ⟨h1, -, -, h4, -⟩ :=
      detect_upset_fields league ht av hsc asc (some ps) (some o) false false hd
    refine ⟨by rw [h1, hs], ?_⟩
    rw [h4, hs, habs]
  · have habs : |hsc - asc| = hsc - asc := abs_of_nonneg (by omega)
    have hs : detectState ht av hsc asc (some ps) (some o) false false =
        { detected := true
          utype := some "point_spread"
          reason := some (.oddsWin (if asc < hsc then ht else av) o)
          magnitude := max (|ps| + ((hsc - asc : Int) : ℚ)) o } := by
      unfold detectState
      rw [spreadRule_home_win ht av hsc asc ps initState hp hw,
        oddsRule_fire_typed _ o _ _ _ _ ho, performanceRule_false, historicalRule_false]
    have hd : (detectState ht av hsc asc (some ps) (some o) false false).detected
        = true := by
      rw [hs]
    obtain ⟨h1, -, -, h4, -⟩ :=
      detect_upset_fields league ht av hsc asc (some ps) (some o) false false hd
    refine ⟨by rw [h1, hs], ?_⟩
    rw [h4, hs, habs]

/-- C4 (witness): the amended theorem at the 98–112 away win with
spread `8.5` and odds `2.5`. -/
theorem spread_and_odds_priority_witness :
    (detect_upset "NBA" "Lakers" "Warriors" 98 112 (some (17/2)) (some (5/2))
        false false).getType = some "point_spread" ∧
    (detect_upset "NBA" "Lakers" "Warriors" 98 112 (some (17/2)) (some (5/2))
        false false).getMagnitude
      = some (max (|(17:ℚ)/2| + ((|(98:Int) - 112| : Int) : ℚ)) (5/2)) :=
  spread_and_odds_priority "NBA" "Lakers" "Warriors" 98 112 (17/2) (5/2)
    (Or.inl ⟨by norm_num, by decide⟩) (by norm_num)

/-- C5: the point-spread rule with a provided spread: home favored
(`0 < ps`) and away win fires with magnitude `ps + (away - home)`;
away favored or pick'em (`ps ≤ 0`) and home win fires with magnitude
`|ps| + (home - away)`; every other combination leaves the state
untouched.  In particular the NBA example 98–112 with spread `8.5`
yields type `"point_spread"`, winner `"Warriors"` and magnitude
`22.5`. -/
theorem point_spread_rule_spec (ht av : String) (hsc asc : Int) (ps : ℚ) :
    (0 < ps → hsc < asc →
      (spreadRule ht av hsc asc (some ps) initState).detected = true ∧
      (spreadRule ht av hsc asc (some ps) initState).utype = some "point_spread" ∧
      (spreadRule ht av hsc asc (some ps) initState).magnitude
        = ps + ((asc - hsc : Int) : ℚ)) ∧
    (ps ≤ 0 → asc < hsc →
      (spreadRule ht av hsc asc (some ps) initState).detected = true ∧
      (spreadRule ht av hsc asc (some ps) initState).utype = some "point_spread" ∧
      (spreadRule ht av hsc asc (some ps) initState).magnitude
        = |ps| + ((hsc - asc : Int) : ℚ)) ∧
    (¬(0 < ps ∧ hsc < asc) → ¬(ps ≤ 0 ∧ asc < hsc) →
      spreadRule ht av hsc asc (some ps) initState = initState) ∧
    ((detect_upset "NBA" "Lakers" "Warriors" 98 112 (some (17/2)) none
        false false).getType = some "point_spread" ∧
     (detect_upset "NBA" "Lakers" "Warriors" 98 112 (some (17/2)) none
        false false).getWinner = some "Warriors" ∧
     (detect_upset "NBA" "Lakers" "Warriors" 98 112 (some (17/2)) none
        false false).getMagnitude = some (45/2)) := by
  refine ⟨?_, ?_, ?_, ?_⟩
  · intro hp hw
    rw [spreadRule_away_win ht av hsc asc ps initState hp hw]
    exact ⟨rfl, rfl, by rw [abs_of_pos hp]⟩
  · intro hp hw
    rw [spreadRule_home_win ht av hsc asc ps initState hp hw]
    exact ⟨rfl, rfl, rfl⟩
  · intro h1 h2
    exact spreadRule_no_fire ht av hsc asc ps initState h1 h2
  · norm_num [detect_upset, detectState, spreadRule, oddsRule, performanceRule,
      historicalRule, finalizeUpset, pydanticUpset, initState, validTypes,
      DetectResult.getType, DetectResult.getWinner, DetectResult.getMagnitude,
      abs_of_pos]

/-- C5 (witness): the first case of the rule theorem at the concrete
98–112 away win with spread `8.5`. -/
theorem point_spread_rule_spec_witness :
    (spreadRule "Lakers" "Warriors" 98 112 (some (17/2)) initState).detected = true ∧
    (spreadRule "Lakers" "Warriors" 98 112 (some (17/2)) initState).utype
        = some "point_spread" ∧
    (spreadRule "Lakers" "Warriors" 98 112 (some (17/2)) initState).magnitude
        = 17/2 + ((112 - 98 : Int) : ℚ) :=
  (point_spread_rule_spec "Lakers" "Warriors" 98 112 (17/2)).1 (by norm_num) (by decide)

/-- C7: whenever `odds_before_game > 2.0` and the score is decisive,
`detect_upset` returns a non-null record, whatever the margin, the
spread and its outcome, and the remaining inputs — the odds rule fires
unconditionally on the odds threshold. -/
theorem high_odds_always_upset (league ht av : String) (hsc asc : Int)
    (ps : Option ℚ) (o : ℚ) (lc hc : Bool) (hne : hsc ≠ asc) (ho : 2 < o) :
    (detect_upset league ht av hsc asc ps (some o) lc hc).isOk = true := by
  have hd : (detectState ht av hsc asc ps (some o) lc hc).detected = true :=
    historicalRule_detected _ _ (performanceRule_detected _ _ _ _
      (oddsRule_fire _ o _ ho))
  obtain ⟨-, -, -, -, h5⟩ :=
    detect_upset_fields league ht av hsc asc ps (some o) lc hc hd
  exact h5

/-- C7 (witness): a 3–1 home win where the favorite covered the spread
(`point_spread = -2`, away favored... the home side won by 2, so the
spread rule does not fire) with odds `2.5` is still classified. -/
theorem high_odds_always_upset_witness :
    (detect_upset "NHL" "Bruins" "Canadiens" 3 1 (some 2) (some (5/2))
        false false).isOk = true :=
  high_odds_always_upset "NHL" "Bruins" "Canadiens" 3 1 (some 2) (5/2)
    false false (by decide) (by norm_num)

/-- C8: every record `detect_upset` returns satisfies the model
invariants — `upset_magnitude ≥ 0` and `upset_type` among the four
valid values — for every input on which the result is non-null. -/
theorem upset_record_invariant (league ht av : String) (hsc asc : Int)
    (ps odds : Option ℚ) (lc hc : Bool) (u : Upset)
    (h : detect_upset league ht av hsc asc ps odds lc hc = .ok u) :
    0 ≤ u.upset_magnitude ∧ u.upset_type ∈ validTypes := by
  unfold detect_upset finalizeUpset at h
  split at h
  · split at h
    · exact absurd h (by simp)
    · unfold pydanticUpset at h
      split at h
      · split at h
        · rw [DetectResult.ok.injEq] at h
          rw [← h]
          constructor
          · assumption
          · assumption
        · exact absurd h (by simp)
      · exact absurd h (by simp)
  · exact absurd h (by simp)

/-- C8 (witness): the invariant theorem applied to the concrete record
returned for the 98–112 away win with spread `8.5`. -/
theorem upset_record_invariant_witness :
    0 ≤ exampleUpset.upset_magnitude ∧ exampleUpset.upset_type ∈ validTypes :=
  upset_record_invariant "NBA" "Lakers" "Warriors" 98 112 (some (17/2)) none
    false false exampleUpset (by
      norm_num [detect_upset, detectState, spreadRule, oddsRule, performanceRule,
        historicalRule, finalizeUpset, pydanticUpset, initState, validTypes,
        exampleUpset, abs_of_pos])

/-- C10: on a tied game where any non-spread rule fires (odds above
`2.0`, truthy `league_config` — a tie has margin `0 ≤ 3`, so the
performance rule fires — or a truthy historical context), the returned
record names the AWAY team as winner and the HOME team as loser,
because winner/loser come from the single strict test
`home_score > away_score`. -/
theorem tie_winner_is_away_team (league ht av : String) (n : Int)
    (ps odds : Option ℚ) (lc hc : Bool)
    (hr : oddsFires odds = true ∨ lc = true ∨ hc = true) :
    (detect_upset league ht av n n ps odds lc hc).getWinner = some av ∧
    (detect_upset league ht av n n ps odds lc hc).getLoser = some ht := by
  have hd : (detectState ht av n n ps odds lc hc).detected = true := by
    rcases hr with h | h | h
    · cases odds with
      | none => exact absurd h (by simp [oddsFires])
      | some o =>
        have ho : (2 : ℚ) < o := of_decide_eq_true h
        exact historicalRule_detected _ _ (performanceRule_detected _ _ _ _
          (oddsRule_fire _ o _ ho))
    · subst h
      exact historicalRule_detected _ _ (performanceRule_fire _ _ _ (by simp))
    · subst h
      exact historicalRule_fire _
  obtain ⟨-, h2, h3, -, -⟩ := detect_upset_fields league ht av n n ps odds lc hc hd
  rw [if_neg (lt_irrefl n)] at h2 h3
  exact ⟨h2, h3⟩

/-- C10 (witness): tied 100–100 game with odds `2.5`: the away team is
recorded as winner, the home team as loser. -/
theorem tie_winner_is_away_team_witness :
    (detect_upset "NBA" "Hawks" "Bulls" 100 100 none (some (5/2))
        false false).getWinner = some "Bulls" ∧
    (detect_upset "NBA" "Hawks" "Bulls" 100 100 none (some (5/2))
        false false).getLoser = some "Hawks" :=
  tie_winner_is_away_team "NBA" "Hawks" "Bulls" 100 none (some (5/2)) false false
    (Or.inl (by norm_num [oddsFires]))

/-- A stored NBA upset row used as concrete data for the database
read theorems. -/
def rowW : UpsetRow :=
  { league := "NBA", game_date := "2024-01-15"
    created_at := "2024-01-15T10:00:00Z", winner := "Bulls"
    upset_type := "odds", upset_magnitude := 3 }

/-- A second stored NBA upset row. -/
def rowX : UpsetRow :=
  { league := "NBA", game_date := "2024-02-01"
    created_at := "2024-02-01T08:00:00Z", winner := "Knicks"
    upset_type := "point_spread", upset_magnitude := 12 }

/-- C6 (counterexample): over an empty record set the SQL aggregate row
has `COUNT(*) = 0` but `AVG(upset_magnitude)` is NULL (Python `None`),
not `0`, so `avg_magnitude == 0` is false. -/
theorem empty_stats_avg_is_null :
    (get_upset_stats none []).total_upsets = 0 ∧
    (get_upset_stats none []).avg_magnitude = none ∧
    (get_upset_stats none []).avg_magnitude ≠ some 0 := by
  decide

/-- C6 (amended): aggregating over an empty record set — no stored
upsets, or none matching the league filter — returns `total_upsets = 0`
with `avg_magnitude` and `max_magnitude` NULL (`None`), and raises no
exception. -/
theorem empty_stats_zero_and_null (league : Option String) (rows : List UpsetRow)
    (h : leagueFilter league rows = []) :
    (get_upset_stats league rows).total_upsets = 0 ∧
    (get_upset_stats league rows).avg_magnitude = none ∧
    (get_upset_stats league rows).max_magnitude = none := by
  unfold get_upset_stats
  rw [h]
  exact ⟨rfl, rfl, rfl⟩

/-- C6 (witness): a non-empty table whose single NBA row is excluded by
an NHL filter. -/
theorem empty_stats_zero_and_null_witness :
    (get_upset_stats (some "NHL") [rowW]).total_upsets = 0 ∧
    (get_upset_stats (some "NHL") [rowW]).avg_magnitude = none ∧
    (get_upset_stats (some "NHL") [rowW]).max_magnitude = none :=
  empty_stats_zero_and_null (some "NHL") [rowW] (by decide)

/-- C9: the recent-upsets read returns at most `limit` rows, pairwise
ordered by `game_date` descending with ties broken by `created_at`
descending (the order is a property of the stored fields, not of
storage order), and restricted to the requested league whenever a
truthy league filter is supplied. -/
theorem recent_upsets_contract (league : Option String) (limit : Nat)
    (rows : List UpsetRow) :
    (get_recent_upsets league limit rows).length ≤ limit ∧
    List.Pairwise recentLE (get_recent_upsets league limit rows) ∧
    (∀ l, league = some l → l ≠ "" →
      ∀ r ∈ get_recent_upsets league limit rows, r.league = l) := by
  refine ⟨?_, ?_, ?_⟩
  · rw [get_recent_upsets, List.length_take]
    exact min_le_left _ _
  · exact List.Pairwise.sublist (List.take_sublist _ _)
      (List.sorted_insertionSort recentLE _)
  · intro l hl hne r hr
    subst hl
    have hr2 : r ∈ List.insertionSort recentLE (leagueFilter (some l) rows) :=
      List.take_subset _ _ hr
    have hr3 : r ∈ leagueFilter (some l) rows :=
      (List.perm_insertionSort recentLE _).subset hr2
    simp only [leagueFilter] at hr3
    rw [if_neg hne] at hr3
    exact of_decide_eq_true (List.mem_filter.mp hr3).2

/-- C9 (witness): the league-restriction clause of the contract at a
concrete one-row table with an NBA filter and limit 2. -/
theorem recent_upsets_contract_witness : rowX.league = "NBA" :=
  (recent_upsets_contract (some "NBA") 2 [rowX]).2.2 "NBA" rfl (by decide)
    rowX (by decide)

end AthletiDB
